import Mathlib

/-!
Verification development for `src/psi4/driver/procrouting/sapt/sapt_proc.py`
(the `run_sapt_dft` pipeline).

The embedding is a shallow, executable model of the pipeline's control logic:
global configuration options, the process-wide variable store, the default
I/O namespace, and an event trace recording every call to an external
collaborator (SCF engine invocations, file-namespace relabelings, dispersion
evaluator dispatch).  External collaborators (the SCF engine, the energy-term
evaluators, the dispersion evaluators) are oracles supplied as inputs.
Energies are modelled as rationals.
-/

/-- Python dicts with string keys and scalar values, as insertion-ordered
association lists (Python 3.7+ dict semantics: assignment to an existing key
keeps its position, a new key is appended at the end). -/
abbrev Dict := List (String × ℚ)

/-- `d[k] = v` on a Python dict: replace in place if the key is present,
otherwise append. -/
def dictSet : Dict → String → ℚ → Dict
  | [], k, v => [(k, v)]
  | p :: d, k, v => if p.1 = k then (k, v) :: d else p :: dictSet d k v

/-- `d[k]` on a Python dict; total, returning 0 for a missing key (matching
`core.get_variable`, which yields 0.0 for an unset variable). -/
def dictGet : Dict → String → ℚ
  | [], _ => 0
  | p :: d, k => if p.1 = k then p.2 else dictGet d k

/-- `d.update(e)`: assign every entry of `e` into `d`, in order. -/
def dictUpdate (d : Dict) : Dict → Dict
  | [] => d
  | p :: e => dictUpdate (dictSet d p.1 p.2) e

/-- The keys of a dict, in order. -/
def dictKeys (d : Dict) : List String := d.map Prod.fst

/-- The global configuration keys touched by `run_sapt_dft`:
the five keys recorded by the `OptionsState` snapshot at line 46
(SCF_TYPE, REFERENCE, DFT_FUNCTIONAL, DFT_GRAC_SHIFT, SAVE_JK) plus
DF_INTS_IO (set at lines 131/138).  `scf_type_changed` models
`core.has_option_changed('SCF', 'SCF_TYPE')`. -/
structure GlobalOptions where
  scf_type : String
  scf_type_changed : Bool
  reference : String
  dft_functional : String
  dft_grac_shift : ℚ
  save_jk : Bool
  df_ints_io : String
deriving DecidableEq, Repr

/-- The SAPT-module options read at lines 79-82, 187-188 and 281. -/
structure SaptOptions where
  sapt_dft_grac_shift_a : ℚ
  sapt_dft_grac_shift_b : ℚ
  sapt_dft_do_dhf : Bool
  sapt_dft_functional : String
  sapt_dft_mp2_disp_alg : String
  maxiter : ℕ
  d_convergence : ℚ
deriving DecidableEq, Repr

/-- The molecule, reduced to the only attribute the pipeline's control
logic branches on: its fragment count (line 115). -/
structure Molecule where
  nfragments : ℕ
deriving DecidableEq, Repr

/-- A wavefunction returned by an SCF sub-calculation, reduced to its
scalar total energy. -/
structure Wfn where
  energy : ℚ
deriving DecidableEq, Repr

/-- The dimer-level wavefunction returned by the pipeline (lines 198-201):
either the delta-HF pass's dimer SCF result, or a bare
`core.Wavefunction.build(sapt_dimer, basis)` object that is not the product
of any sub-calculation. -/
inductive DimerWfn
  | fromScf (w : Wfn)
  | built
deriving DecidableEq, Repr

/-- Which pass an SCF sub-calculation belongs to: the delta-HF pass
(lines 136-196) or the primary DFT pass (lines 203-232). -/
inductive PassTag
  | aux
  | primary
deriving DecidableEq, Repr

/-- Which molecule an SCF sub-calculation is run on. -/
inductive MolTag
  | dimer
  | monomerA
  | monomerB
deriving DecidableEq, Repr

/-- Observable events: calls to external collaborators, in program order.
An `scfCall` records the pass, the molecule, and the value of the global
DFT_GRAC_SHIFT option at the moment of the call (the engine reads the
ambient global options). -/
inductive Event
  | setNs (ns : String)
  | scfCall (p : PassTag) (m : MolTag) (gracShift : ℚ)
  | relabel (old : String) (new : String)
  | dispFisapt
  | dispSapt
deriving DecidableEq, Repr

/-- The SAPT JK cache built by `sapt_jk_terms.build_sapt_jk_cache` from the
two monomer wavefunctions (lines 172, 253); opaque to this core. -/
structure Cache where
  wfnA : Wfn
  wfnB : Wfn
deriving DecidableEq, Repr

/-- The external collaborators, as oracles.  `scf` is indexed by the number
of SCF calls made so far; `.error` models an engine failure (a raised
exception).  The energy-term evaluators return label-to-value mappings. -/
structure Engine where
  scf : ℕ → Except Unit Wfn
  elst : Cache → Dict
  exch : Cache → Dict
  ind : Cache → ℕ → ℚ → Dict
  fdds : Cache → Dict
  mp2_fisapt : Wfn → Cache → Dict
  mp2_sapt : DimerWfn → Wfn → Wfn → Cache → Dict

/-- The mutable process-wide state threaded through the run. -/
structure RunState where
  opts : GlobalOptions
  vars : Dict
  default_ns : String
  trace : List Event
  nscf : ℕ
deriving DecidableEq, Repr

/-- Errors: `validation` models a raised `ValidationError`; `engine`
models an exception propagating out of an external engine call. -/
inductive RunError
  | validation (msg : String)
  | engine
deriving DecidableEq, Repr

deriving instance DecidableEq for Except

/-- Append an observable event to the trace. -/
def emit (s : RunState) (e : Event) : RunState :=
  { s with trace := s.trace ++ [e] }

/-- `core.set_variable`. -/
def setVariable (s : RunState) (k : String) (v : ℚ) : RunState :=
  { s with vars := dictSet s.vars k v }

/-- `core.get_variable`. -/
def getVariable (s : RunState) (k : String) : ℚ :=
  dictGet s.vars k

/-- `core.IO.set_default_namespace`. -/
def set_default_namespace (s : RunState) (ns : String) : RunState :=
  { emit s (Event.setNs ns) with default_ns := ns }

/-- `core.IO.change_file_namespace(97, old, new)`. -/
def change_file_namespace (s : RunState) (old new : String) : RunState :=
  emit s (Event.relabel old new)

/-- `scf_helper("SCF", molecule=..., **kwargs)`: one blocking call to the
external SCF engine.  A call is made (the counter increments and the event
is recorded) whether it succeeds or raises; on success the engine sets the
"CURRENT ENERGY" process variable. -/
def scf_helper (eng : Engine) (p : PassTag) (m : MolTag) (s : RunState) :
    Except Unit Wfn × RunState :=
  let s := emit s (Event.scfCall p m s.opts.dft_grac_shift)
  match eng.scf s.nscf with
  | Except.ok w => (Except.ok w, setVariable { s with nscf := s.nscf + 1 } "CURRENT ENERGY" w.energy)
  | Except.error e => (Except.error e, { s with nscf := s.nscf + 1 })

/-- Modelled from the spec: `print_sapt_hf_summary` lives in
`sapt_util.py`, which is not under `src/`.  Per the spec (section 4.6), the
aggregator "computes a derived 'delta' quantity as (dimer energy − monomer A
energy − monomer B energy) and records it alongside the decomposed terms":
the summary step publishes the delta it is handed to the process-wide
variable store under "SAPT(DFT) Delta HF", where line 196 of the source
reads it back. -/
def print_sapt_hf_summary (s : RunState) (delta_hf : ℚ) : RunState :=
  setVariable s "SAPT(DFT) Delta HF" delta_hf

/-- The delta-HF pass, lines 136-196.  On success it returns the dimer HF
wavefunction, the derived `dhf_value` (line 191), and the value stored into
`data["Delta HF Correction"]` (line 196). -/
def auxPass (eng : Engine) (sapt : SaptOptions) (s : RunState) :
    Except RunError (Wfn × ℚ × ℚ) × RunState :=
  -- lines 137-138
  let s := if s.opts.scf_type = "DF" then
    { s with opts := { s.opts with df_ints_io := "SAVE" } } else s
  let hf_data : Dict := []
  -- lines 141-143: delta HF Dimer
  let r := scf_helper eng PassTag.aux MolTag.dimer s
  let s := r.2
  match r.1 with
  | Except.error _ => (Except.error RunError.engine, s)
  | Except.ok hf_wfn_dimer =>
    let hf_data := dictSet hf_data "HF DIMER" (getVariable s "CURRENT ENERGY")
    -- lines 145-149: relabel, delta HF Monomer A
    let s := if s.opts.scf_type = "DF" then change_file_namespace s "dimer" "monomerA" else s
    let r := scf_helper eng PassTag.aux MolTag.monomerA s
    let s := r.2
    match r.1 with
    | Except.error _ => (Except.error RunError.engine, s)
    | Except.ok hf_wfn_A =>
      let hf_data := dictSet hf_data "HF MONOMER A" (getVariable s "CURRENT ENERGY")
      -- lines 151-155: relabel, delta HF Monomer B
      let s := if s.opts.scf_type = "DF" then change_file_namespace s "monomerA" "monomerB" else s
      let r := scf_helper eng PassTag.aux MolTag.monomerB s
      let s := r.2
      match r.1 with
      | Except.error _ => (Except.error RunError.engine, s)
      | Except.ok hf_wfn_B =>
        let hf_data := dictSet hf_data "HF MONOMER B" (getVariable s "CURRENT ENERGY")
        -- lines 158-159: move it back to dimer
        let s := if s.opts.scf_type = "DF" then change_file_namespace s "monomerB" "dimer" else s
        -- lines 170-189: cache, electrostatics, exchange, induction
        let hf_cache : Cache := { wfnA := hf_wfn_A, wfnB := hf_wfn_B }
        let hf_data := dictUpdate hf_data (eng.elst hf_cache)
        let hf_data := dictUpdate hf_data (eng.exch hf_cache)
        let hf_data := dictUpdate hf_data (eng.ind hf_cache sapt.maxiter sapt.d_convergence)
        -- line 191
        let dhf_value := dictGet hf_data "HF DIMER" - dictGet hf_data "HF MONOMER A"
          - dictGet hf_data "HF MONOMER B"
        -- line 194 (external summary printer publishes the delta variable)
        let s := print_sapt_hf_summary s dhf_value
        -- line 196
        let deltaCorrection := getVariable s "SAPT(DFT) Delta HF"
        (Except.ok (hf_wfn_dimer, dhf_value, deltaCorrection), s)

/-- Lines 203-298: the primary DFT pass over the two monomers, the shared
cache, the energy-term evaluators, the dispersion dispatch, the publication
of the report to the process-wide variable store, and the return value. -/
def primaryPart (eng : Engine) (sapt : SaptOptions) (dimer_wfn : DimerWfn)
    (data : Dict) (s : RunState) :
    Except RunError (DimerWfn × Dict) × RunState :=
  -- lines 204-205
  let s := { s with opts := { s.opts with dft_functional := sapt.sapt_dft_functional } }
  let s := { s with opts := { s.opts with reference := "RKS" } }
  -- lines 208-209
  let s := if s.opts.scf_type = "DF" then change_file_namespace s "dimer" "monomerA" else s
  -- lines 211-212 (`if mon_a_shift:` is Python float truthiness)
  let s := if sapt.sapt_dft_grac_shift_a ≠ 0 then
    { s with opts := { s.opts with dft_grac_shift := sapt.sapt_dft_grac_shift_a } } else s
  -- lines 215-217
  let s := set_default_namespace s "monomerA"
  let r := scf_helper eng PassTag.primary MolTag.monomerA s
  let s := r.2
  match r.1 with
  | Except.error _ => (Except.error RunError.engine, s)
  | Except.ok wfn_A =>
    let data := dictSet data "DFT MONOMERA" (getVariable s "CURRENT ENERGY")
    -- line 219
    let s := { s with opts := { s.opts with dft_grac_shift := 0 } }
    -- lines 222-223
    let s := if s.opts.scf_type = "DF" then change_file_namespace s "monomerA" "monomerB" else s
    -- lines 225-226
    let s := if sapt.sapt_dft_grac_shift_b ≠ 0 then
      { s with opts := { s.opts with dft_grac_shift := sapt.sapt_dft_grac_shift_b } } else s
    -- lines 228-230
    let s := set_default_namespace s "monomerB"
    let r := scf_helper eng PassTag.primary MolTag.monomerB s
    let s := r.2
    match r.1 with
    | Except.error _ => (Except.error RunError.engine, s)
    | Except.ok wfn_B =>
      let data := dictSet data "DFT MONOMERB" (getVariable s "CURRENT ENERGY")
      -- line 232
      let s := { s with opts := { s.opts with dft_grac_shift := 0 } }
      -- lines 251-270: cache, electrostatics, exchange, induction
      let cache : Cache := { wfnA := wfn_A, wfnB := wfn_B }
      let data := dictUpdate data (eng.elst cache)
      let data := dictUpdate data (eng.exch cache)
      let data := dictUpdate data (eng.ind cache sapt.maxiter sapt.d_convergence)
      -- lines 273-279: basis construction is external; FDDS dispersion
      let data := dictUpdate data (eng.fdds cache)
      -- lines 281-286: mutually exclusive MP2 dispersion dispatch
      let sd :=
        if sapt.sapt_dft_mp2_disp_alg = "FISAPT" then
          (emit s Event.dispFisapt, dictUpdate data (eng.mp2_fisapt wfn_A cache))
        else
          (emit s Event.dispSapt, dictUpdate data (eng.mp2_sapt dimer_wfn wfn_A wfn_B cache))
      let s := sd.1
      let data := sd.2
      -- lines 292-294: copy data back into globals
      let s := { s with vars := dictUpdate s.vars data }
      -- line 298
      (Except.ok (dimer_wfn, data), s)

/-- The pipeline `run_sapt_dft` (lines 45-298).  The `OptionsState`
snapshot created at line 46 records SCF_TYPE, REFERENCE, DFT_FUNCTIONAL,
DFT_GRAC_SHIFT and SAVE_JK; note that no `optstash.restore()` call appears
anywhere in the function, on any path.  On success the result carries the
returned dimer wavefunction and (for observability) the final `data`
report; the second component is the final process state, on every path
including raised errors. -/
def run_sapt_dft (eng : Engine) (sapt : SaptOptions) (mol : Molecule)
    (s0 : RunState) : Except RunError (DimerWfn × Dict) × RunState :=
  -- lines 54-55: alter default algorithm (set_local_option marks the
  -- option as changed)
  let s := if s0.opts.scf_type_changed then s0
    else { s0 with opts := { s0.opts with scf_type := "DF", scf_type_changed := true } }
  -- lines 79-82
  let mon_a_shift := sapt.sapt_dft_grac_shift_a
  let mon_b_shift := sapt.sapt_dft_grac_shift_b
  let do_delta_hf := sapt.sapt_dft_do_dhf
  let sapt_dft_functional := sapt.sapt_dft_functional
  -- lines 109-110
  if sapt_dft_functional ≠ "HF" ∧ (mon_a_shift = 0 ∨ mon_b_shift = 0) then
    (Except.error (RunError.validation "SAPT(DFT): must set both SAPT_DFT_GRAC_SHIFT_A and B."), s)
  -- lines 112-113
  else if s.opts.reference ≠ "RHF" then
    (Except.error (RunError.validation "SAPT(DFT) currently only supports restricted references."), s)
  -- lines 115-118
  else if mol.nfragments ≠ 2 then
    (Except.error (RunError.validation "SAPT requires active molecule to have 2 fragments."), s)
  else
    -- line 125
    let s := set_default_namespace s "dimer"
    -- line 126
    let data : Dict := []
    -- line 128
    let s := { s with opts := { s.opts with save_jk := true } }
    -- lines 129-131
    let s := if s.opts.scf_type = "DF" then
      { s with opts := { s.opts with df_ints_io := "SAVE" } } else s
    -- lines 136-201
    if do_delta_hf then
      let r := auxPass eng sapt s
      let s := r.2
      match r.1 with
      | Except.error e => (Except.error e, s)
      | Except.ok x =>
        let hf_wfn_dimer := x.1
        let deltaCorrection := x.2.2
        let data := dictSet data "Delta HF Correction" deltaCorrection
        -- lines 198-201: dimer_wfn is the delta-HF dimer wavefunction
        primaryPart eng sapt (DimerWfn.fromScf hf_wfn_dimer) data s
    else
      -- lines 198-199: dimer_wfn is a freshly built wavefunction object
      primaryPart eng sapt DimerWfn.built data s

/-! ## Observers on traces and results -/

/-- An event with the numeric payload erased (for claims about call order
only). -/
inductive EventShape
  | setNs (ns : String)
  | scfCall (p : PassTag) (m : MolTag)
  | relabel (old : String) (new : String)
  | dispFisapt
  | dispSapt
deriving DecidableEq, Repr

/-- Erase the numeric payload of an event. -/
def Event.shape : Event → EventShape
  | Event.setNs ns => EventShape.setNs ns
  | Event.scfCall p m _ => EventShape.scfCall p m
  | Event.relabel o n => EventShape.relabel o n
  | Event.dispFisapt => EventShape.dispFisapt
  | Event.dispSapt => EventShape.dispSapt

/-- Is this event an SCF engine call? -/
def Event.isScf : Event → Bool
  | Event.scfCall _ _ _ => true
  | _ => false

/-- Is this event a primary-pass SCF engine call? -/
def Event.isPrimaryScf : Event → Bool
  | Event.scfCall PassTag.primary _ _ => true
  | _ => false

/-- Is this event a file-namespace relabeling? -/
def Event.isRelabel : Event → Bool
  | Event.relabel _ _ => true
  | _ => false

/-- Is this event a dispersion-evaluator dispatch? -/
def Event.isDisp : Event → Bool
  | Event.dispFisapt => true
  | Event.dispSapt => true
  | _ => false

/-- The final report (`data`) of a successful run, `[]` on failure. -/
def runReport (r : Except RunError (DimerWfn × Dict) × RunState) : Dict :=
  match r.1 with
  | Except.ok x => x.2
  | Except.error _ => []

/-- The wavefunction returned by a successful run. -/
def returnedWfn (r : Except RunError (DimerWfn × Dict) × RunState) :
    Option DimerWfn :=
  match r.1 with
  | Except.ok x => some x.1
  | Except.error _ => none

/-- The derived `dhf_value` of a successful delta-HF pass. -/
def auxDelta (r : Except RunError (Wfn × ℚ × ℚ) × RunState) : Option ℚ :=
  match r.1 with
  | Except.ok x => some x.2.1
  | Except.error _ => none

/-! ## Concrete instances -/

/-- An engine whose `n`-th SCF call succeeds with energy `n` and whose
evaluators contribute no labels. -/
def engOk : Engine where
  scf := fun n => Except.ok { energy := (n : ℚ) }
  elst := fun _ => []
  exch := fun _ => []
  ind := fun _ _ _ => []
  fdds := fun _ => []
  mp2_fisapt := fun _ _ => []
  mp2_sapt := fun _ _ _ _ => []

/-- An engine whose every SCF call raises. -/
def engFail0 : Engine where
  scf := fun _ => Except.error ()
  elst := fun _ => []
  exch := fun _ => []
  ind := fun _ _ _ => []
  fdds := fun _ => []
  mp2_fisapt := fun _ _ => []
  mp2_sapt := fun _ _ _ _ => []

/-- An engine whose electrostatics evaluator returns a distinct label for
the delta-HF cache (monomer A energy 1) and the primary cache (monomer A
energy 3), making the two passes' contributions distinguishable. -/
def engAux : Engine where
  scf := fun n => Except.ok { energy := (n : ℚ) }
  elst := fun c => if c.wfnA.energy = 1 then [("AUX ELST", 11)] else [("PRIM ELST", 21)]
  exch := fun _ => []
  ind := fun _ _ _ => []
  fdds := fun _ => []
  mp2_fisapt := fun _ _ => []
  mp2_sapt := fun _ _ _ _ => []

/-- A pre-run state: SCF_TYPE "PK" not yet changed by the caller,
restricted reference, empty variable store and trace. -/
def s0Default : RunState where
  opts := { scf_type := "PK", scf_type_changed := false, reference := "RHF",
            dft_functional := "B3LYP", dft_grac_shift := 0, save_jk := false,
            df_ints_io := "NONE" }
  vars := []
  default_ns := ""
  trace := []
  nscf := 0

/-- SAPT options: trivial HF functional (no shifts needed), no delta-HF
pass, SAPT dispersion algorithm. -/
def saptHF : SaptOptions where
  sapt_dft_grac_shift_a := 0
  sapt_dft_grac_shift_b := 0
  sapt_dft_do_dhf := false
  sapt_dft_functional := "HF"
  sapt_dft_mp2_disp_alg := "SAPT"
  maxiter := 50
  d_convergence := 0

/-- SAPT options: non-trivial functional with both shifts set, delta-HF
pass enabled, FISAPT dispersion algorithm. -/
def saptDHF : SaptOptions where
  sapt_dft_grac_shift_a := 2
  sapt_dft_grac_shift_b := 3
  sapt_dft_do_dhf := true
  sapt_dft_functional := "PBE0"
  sapt_dft_mp2_disp_alg := "FISAPT"
  maxiter := 50
  d_convergence := 0

/-- SAPT options: non-trivial functional with both required shifts left at
their default 0.0. -/
def saptBad : SaptOptions where
  sapt_dft_grac_shift_a := 0
  sapt_dft_grac_shift_b := 0
  sapt_dft_do_dhf := false
  sapt_dft_functional := "PBE0"
  sapt_dft_mp2_disp_alg := "SAPT"
  maxiter := 50
  d_convergence := 0

/-- SAPT options: non-trivial functional, both shifts set, no delta-HF
pass, SAPT dispersion algorithm. -/
def saptPBE : SaptOptions where
  sapt_dft_grac_shift_a := 3
  sapt_dft_grac_shift_b := 2
  sapt_dft_do_dhf := false
  sapt_dft_functional := "PBE0"
  sapt_dft_mp2_disp_alg := "SAPT"
  maxiter := 50
  d_convergence := 0

/-- A two-fragment composite. -/
def mol2 : Molecule := { nfragments := 2 }

/-- A three-fragment composite. -/
def mol3 : Molecule := { nfragments := 3 }

/-- The wavefunction the engines above return on the `n`-th call. -/
def wfId : ℕ → Wfn := fun n => { energy := (n : ℚ) }

/-- Energies for the delta-HF example of the spec: dimer 10, monomer A 4,
monomer B 3. -/
def wfC6 : ℕ → Wfn :=
  fun n => { energy := if n = 0 then 10 else if n = 1 then 4 else 3 }

/-- An engine realising the spec's delta-HF example energies. -/
def engC6 : Engine where
  scf := fun n => Except.ok (wfC6 n)
  elst := fun _ => []
  exch := fun _ => []
  ind := fun _ _ _ => []
  fdds := fun _ => []
  mp2_fisapt := fun _ _ => []
  mp2_sapt := fun _ _ _ _ => []

/-- An engine whose two MP2 dispersion evaluators carry distinct labels. -/
def engC7 : Engine where
  scf := fun n => Except.ok (wfId n)
  elst := fun _ => []
  exch := fun _ => []
  ind := fun _ _ _ => []
  fdds := fun _ => []
  mp2_fisapt := fun _ _ => [("MP2 FISAPT DISP", 7)]
  mp2_sapt := fun _ _ _ _ => [("MP2 SAPT DISP", 8)]

/-- A pre-run state whose SCF_TYPE is already "DF". -/
def sDF : RunState :=
  { s0Default with opts := { s0Default.opts with scf_type := "DF" } }

/-- A pre-run state where the caller has explicitly set SCF_TYPE to the
non-DF value "PK". -/
def s0PK : RunState :=
  { s0Default with opts := { s0Default.opts with scf_type_changed := true } }

/-! ## Expected-value helpers for successful runs -/

/-- The `hf_data` mapping of the delta-HF pass after the three HF energies
and the three evaluator updates, when the first SCF call has index `n`. -/
def auxHfData (eng : Engine) (sapt : SaptOptions) (wf : ℕ → Wfn) (n : ℕ) : Dict :=
  dictUpdate (dictUpdate (dictUpdate
    [("HF DIMER", (wf n).energy), ("HF MONOMER A", (wf (n+1)).energy),
     ("HF MONOMER B", (wf (n+2)).energy)]
    (eng.elst { wfnA := wf (n+1), wfnB := wf (n+2) }))
    (eng.exch { wfnA := wf (n+1), wfnB := wf (n+2) }))
    (eng.ind { wfnA := wf (n+1), wfnB := wf (n+2) } sapt.maxiter sapt.d_convergence)

/-- The `dhf_value` of line 191, when the first SCF call has index `n`. -/
def auxDhf (eng : Engine) (sapt : SaptOptions) (wf : ℕ → Wfn) (n : ℕ) : ℚ :=
  dictGet (auxHfData eng sapt wf n) "HF DIMER"
    - dictGet (auxHfData eng sapt wf n) "HF MONOMER A"
    - dictGet (auxHfData eng sapt wf n) "HF MONOMER B"

/-- The label-to-value mapping contributed by the selected MP2 dispersion
evaluator (lines 281-286), when the primary monomer A SCF call has index
`n`. -/
def mp2DispList (eng : Engine) (sapt : SaptOptions) (wf : ℕ → Wfn)
    (dw : DimerWfn) (n : ℕ) : Dict :=
  if sapt.sapt_dft_mp2_disp_alg = "FISAPT" then
    eng.mp2_fisapt (wf n) { wfnA := wf n, wfnB := wf (n+1) }
  else
    eng.mp2_sapt dw (wf n) (wf (n+1)) { wfnA := wf n, wfnB := wf (n+1) }

/-- The final report of the primary part: the two monomer energies followed
by the five evaluator updates, starting from the incoming `data`, when the
primary monomer A SCF call has index `n`. -/
def primaryData (eng : Engine) (sapt : SaptOptions) (wf : ℕ → Wfn)
    (dw : DimerWfn) (data : Dict) (n : ℕ) : Dict :=
  dictUpdate (dictUpdate (dictUpdate (dictUpdate (dictUpdate
    (dictSet (dictSet data "DFT MONOMERA" (wf n).energy)
      "DFT MONOMERB" (wf (n+1)).energy)
    (eng.elst { wfnA := wf n, wfnB := wf (n+1) }))
    (eng.exch { wfnA := wf n, wfnB := wf (n+1) }))
    (eng.ind { wfnA := wf n, wfnB := wf (n+1) } sapt.maxiter sapt.d_convergence))
    (eng.fdds { wfnA := wf n, wfnB := wf (n+1) }))
    (mp2DispList eng sapt wf dw n)

/-! ## Dictionary lemmas -/

theorem dictKeys_nil : dictKeys [] = [] := rfl

theorem dictKeys_cons (p : String × ℚ) (d : Dict) :
    dictKeys (p :: d) = p.1 :: dictKeys d := rfl

theorem dictGet_set_self (d : Dict) (k : String) (v : ℚ) :
    dictGet (dictSet d k v) k = v := by
  induction d with
  | nil => simp [dictSet, dictGet]
  | cons p d ih =>
    by_cases h : p.1 = k
    · simp [dictSet, dictGet, h]
    · simp [dictSet, dictGet, h, ih]

theorem dictGet_set_ne (d : Dict) (k k' : String) (v : ℚ) (h : k' ≠ k) :
    dictGet (dictSet d k v) k' = dictGet d k' := by
  induction d with
  | nil => simp [dictSet, dictGet, Ne.symm h]
  | cons p d ih =>
    by_cases hp : p.1 = k
    · simp [dictSet, dictGet, hp, Ne.symm h]
    · simp [dictSet, dictGet, hp, ih]

theorem mem_dictKeys_set (d : Dict) (k k' : String) (v : ℚ) :
    k' ∈ dictKeys (dictSet d k v) ↔ k' = k ∨ k' ∈ dictKeys d := by
  induction d with
  | nil => simp [dictSet, dictKeys_cons, dictKeys_nil]
  | cons p d ih =>
    by_cases hp : p.1 = k
    · rw [show dictSet (p :: d) k v = (k, v) :: d by simp [dictSet, hp]]
      simp only [dictKeys_cons, List.mem_cons]
      rw [hp]
      tauto
    · simp only [dictSet, if_neg hp, dictKeys_cons, List.mem_cons, ih]
      tauto

theorem dictKeys_set_of_mem (d : Dict) (k : String) (v : ℚ)
    (h : k ∈ dictKeys d) : dictKeys (dictSet d k v) = dictKeys d := by
  induction d with
  | nil => simp [dictKeys_nil] at h
  | cons p d ih =>
    by_cases hp : p.1 = k
    · simp [dictSet, hp, dictKeys_cons]
    · simp only [dictKeys_cons, List.mem_cons] at h
      rcases h with h | h
      · exact absurd h.symm hp
      · simp [dictSet, hp, dictKeys_cons, ih h]

theorem dictKeys_set_of_not_mem (d : Dict) (k : String) (v : ℚ)
    (h : k ∉ dictKeys d) : dictKeys (dictSet d k v) = dictKeys d ++ [k] := by
  induction d with
  | nil => simp [dictSet, dictKeys_cons, dictKeys_nil]
  | cons p d ih =>
    simp only [dictKeys_cons, List.mem_cons, not_or] at h
    have hp : p.1 ≠ k := fun hc => h.1 hc.symm
    simp [dictSet, hp, dictKeys_cons, ih h.2]

theorem nodup_dictKeys_set (d : Dict) (k : String) (v : ℚ)
    (h : (dictKeys d).Nodup) : (dictKeys (dictSet d k v)).Nodup := by
  by_cases hm : k ∈ dictKeys d
  · rwa [dictKeys_set_of_mem d k v hm]
  · rw [dictKeys_set_of_not_mem d k v hm]
    simp [List.nodup_append, h, hm]

theorem dictGet_update_not_mem (d e : Dict) (k : String)
    (h : k ∉ dictKeys e) : dictGet (dictUpdate d e) k = dictGet d k := by
  induction e generalizing d with
  | nil => simp [dictUpdate]
  | cons p e ih =>
    simp only [dictKeys_cons, List.mem_cons, not_or] at h
    rw [dictUpdate, ih _ h.2, dictGet_set_ne _ _ _ _ h.1]

theorem mem_dictKeys_update (d e : Dict) (k : String) :
    k ∈ dictKeys (dictUpdate d e) ↔ k ∈ dictKeys d ∨ k ∈ dictKeys e := by
  induction e generalizing d with
  | nil => simp [dictUpdate, dictKeys_nil]
  | cons p e ih =>
    rw [dictUpdate, ih, mem_dictKeys_set]
    simp only [dictKeys_cons, List.mem_cons]
    tauto

theorem nodup_dictKeys_update (d e : Dict) (h : (dictKeys d).Nodup) :
    (dictKeys (dictUpdate d e)).Nodup := by
  induction e generalizing d with
  | nil => simpa [dictUpdate]
  | cons p e ih => exact ih _ (nodup_dictKeys_set _ _ _ h)

theorem dictGet_update_mem (d e : Dict) (k : String)
    (hnd : (dictKeys e).Nodup) (h : k ∈ dictKeys e) :
    dictGet (dictUpdate d e) k = dictGet e k := by
  induction e generalizing d with
  | nil => simp [dictKeys_nil] at h
  | cons p e ih =>
    simp only [dictKeys_cons, List.mem_cons] at h
    simp only [dictKeys_cons, List.nodup_cons] at hnd
    rcases h with h | h
    · subst h
      rw [dictUpdate, dictGet_update_not_mem _ _ _ hnd.1, dictGet_set_self]
      simp [dictGet]
    · have hk : p.1 ≠ k := fun hc => hnd.1 (hc ▸ h)
      rw [dictUpdate, ih _ hnd.2 h]
      simp [dictGet, hk]

/-! ## Stage lemmas -/

@[simp] theorem scf_helper_fst (eng : Engine) (p : PassTag) (m : MolTag)
    (s : RunState) : (scf_helper eng p m s).1 = eng.scf s.nscf := by
  unfold scf_helper
  cases h : eng.scf s.nscf <;> simp [emit, h]

@[simp] theorem scf_helper_opts (eng : Engine) (p : PassTag) (m : MolTag)
    (s : RunState) : (scf_helper eng p m s).2.opts = s.opts := by
  unfold scf_helper
  cases h : eng.scf s.nscf <;> simp [emit, setVariable, h]

@[simp] theorem scf_helper_trace (eng : Engine) (p : PassTag) (m : MolTag)
    (s : RunState) : (scf_helper eng p m s).2.trace
      = s.trace ++ [Event.scfCall p m s.opts.dft_grac_shift] := by
  unfold scf_helper
  cases h : eng.scf s.nscf <;> simp [emit, setVariable, h]

@[simp] theorem scf_helper_nscf (eng : Engine) (p : PassTag) (m : MolTag)
    (s : RunState) : (scf_helper eng p m s).2.nscf = s.nscf + 1 := by
  unfold scf_helper
  cases h : eng.scf s.nscf <;> simp [emit, setVariable, h]

@[simp] theorem scf_helper_ns (eng : Engine) (p : PassTag) (m : MolTag)
    (s : RunState) : (scf_helper eng p m s).2.default_ns = s.default_ns := by
  unfold scf_helper
  cases h : eng.scf s.nscf <;> simp [emit, setVariable, h]

theorem scf_helper_vars (eng : Engine) (wf : ℕ → Wfn)
    (hscf : ∀ n, eng.scf n = Except.ok (wf n)) (p : PassTag) (m : MolTag)
    (s : RunState) : (scf_helper eng p m s).2.vars
      = dictSet s.vars "CURRENT ENERGY" (wf s.nscf).energy := by
  unfold scf_helper
  simp [emit, setVariable, hscf]

set_option maxHeartbeats 1000000 in
theorem auxPass_ok (eng : Engine) (wf : ℕ → Wfn)
    (hscf : ∀ n, eng.scf n = Except.ok (wf n)) (sapt : SaptOptions)
    (s : RunState) (hdf : s.opts.scf_type = "DF") :
    auxPass eng sapt s =
      (Except.ok (wf s.nscf, auxDhf eng sapt wf s.nscf, auxDhf eng sapt wf s.nscf),
       { opts := { s.opts with df_ints_io := "SAVE" },
         vars := dictSet (dictSet (dictSet (dictSet s.vars
             "CURRENT ENERGY" (wf s.nscf).energy)
             "CURRENT ENERGY" (wf (s.nscf+1)).energy)
             "CURRENT ENERGY" (wf (s.nscf+2)).energy)
             "SAPT(DFT) Delta HF" (auxDhf eng sapt wf s.nscf),
         default_ns := s.default_ns,
         trace := s.trace ++ [Event.scfCall PassTag.aux MolTag.dimer s.opts.dft_grac_shift,
            Event.relabel "dimer" "monomerA",
            Event.scfCall PassTag.aux MolTag.monomerA s.opts.dft_grac_shift,
            Event.relabel "monomerA" "monomerB",
            Event.scfCall PassTag.aux MolTag.monomerB s.opts.dft_grac_shift,
            Event.relabel "monomerB" "dimer"],
         nscf := s.nscf + 3 }) := by
  unfold auxPass
  simp [hscf, hdf, scf_helper_vars eng wf hscf, change_file_namespace, emit,
    getVariable, print_sapt_hf_summary, setVariable, dictGet_set_self,
    auxHfData, auxDhf, dictSet]

set_option maxHeartbeats 1000000 in
theorem primaryPart_ok (eng : Engine) (wf : ℕ → Wfn)
    (hscf : ∀ n, eng.scf n = Except.ok (wf n)) (sapt : SaptOptions)
    (dw : DimerWfn) (data : Dict) (s : RunState)
    (hdf : s.opts.scf_type = "DF") :
    primaryPart eng sapt dw data s =
      (Except.ok (dw, primaryData eng sapt wf dw data s.nscf),
       { opts := { s.opts with
                     dft_functional := sapt.sapt_dft_functional
                     reference := "RKS"
                     dft_grac_shift := 0 },
         vars := dictUpdate (dictSet (dictSet s.vars
             "CURRENT ENERGY" (wf s.nscf).energy)
             "CURRENT ENERGY" (wf (s.nscf+1)).energy)
             (primaryData eng sapt wf dw data s.nscf),
         default_ns := "monomerB",
         trace := s.trace ++ [Event.relabel "dimer" "monomerA",
            Event.setNs "monomerA",
            Event.scfCall PassTag.primary MolTag.monomerA
              (if sapt.sapt_dft_grac_shift_a = 0 then s.opts.dft_grac_shift
               else sapt.sapt_dft_grac_shift_a),
            Event.relabel "monomerA" "monomerB",
            Event.setNs "monomerB",
            Event.scfCall PassTag.primary MolTag.monomerB
              (if sapt.sapt_dft_grac_shift_b = 0 then 0
               else sapt.sapt_dft_grac_shift_b),
            if sapt.sapt_dft_mp2_disp_alg = "FISAPT" then Event.dispFisapt
            else Event.dispSapt],
         nscf := s.nscf + 2 }) := by
  unfold primaryPart
  by_cases ha0 : sapt.sapt_dft_grac_shift_a = 0 <;>
  by_cases hb0 : sapt.sapt_dft_grac_shift_b = 0 <;>
  by_cases halg : sapt.sapt_dft_mp2_disp_alg = "FISAPT" <;>
  simp [hscf, hdf, scf_helper_vars eng wf hscf, change_file_namespace, emit,
    set_default_namespace, getVariable, setVariable, dictGet_set_self,
    primaryData, mp2DispList, ha0, hb0, halg]

set_option maxHeartbeats 1000000 in
theorem run_ok_nodhf (eng : Engine) (wf : ℕ → Wfn)
    (hscf : ∀ n, eng.scf n = Except.ok (wf n)) (sapt : SaptOptions)
    (mol : Molecule) (s0 : RunState)
    (hval : sapt.sapt_dft_functional = "HF" ∨
      (sapt.sapt_dft_grac_shift_a ≠ 0 ∧ sapt.sapt_dft_grac_shift_b ≠ 0))
    (href : s0.opts.reference = "RHF") (hfrag : mol.nfragments = 2)
    (hch : s0.opts.scf_type_changed = false)
    (hd : sapt.sapt_dft_do_dhf = false) :
    run_sapt_dft eng sapt mol s0 =
      (Except.ok (DimerWfn.built, primaryData eng sapt wf DimerWfn.built [] s0.nscf),
       { opts := { scf_type := "DF", scf_type_changed := true, reference := "RKS",
                   dft_functional := sapt.sapt_dft_functional, dft_grac_shift := 0,
                   save_jk := true, df_ints_io := "SAVE" },
         vars := dictUpdate (dictSet (dictSet s0.vars
             "CURRENT ENERGY" (wf s0.nscf).energy)
             "CURRENT ENERGY" (wf (s0.nscf+1)).energy)
             (primaryData eng sapt wf DimerWfn.built [] s0.nscf),
         default_ns := "monomerB",
         trace := s0.trace ++ [Event.setNs "dimer",
            Event.relabel "dimer" "monomerA", Event.setNs "monomerA",
            Event.scfCall PassTag.primary MolTag.monomerA
              (if sapt.sapt_dft_grac_shift_a = 0 then s0.opts.dft_grac_shift
               else sapt.sapt_dft_grac_shift_a),
            Event.relabel "monomerA" "monomerB", Event.setNs "monomerB",
            Event.scfCall PassTag.primary MolTag.monomerB
              (if sapt.sapt_dft_grac_shift_b = 0 then 0
               else sapt.sapt_dft_grac_shift_b),
            if sapt.sapt_dft_mp2_disp_alg = "FISAPT" then Event.dispFisapt
            else Event.dispSapt],
         nscf := s0.nscf + 2 }) := by
  have hcond : ¬(sapt.sapt_dft_functional ≠ "HF" ∧
      (sapt.sapt_dft_grac_shift_a = 0 ∨ sapt.sapt_dft_grac_shift_b = 0)) := by
    rcases hval with hf | ⟨ha, hb⟩
    · exact fun h => h.1 hf
    · rintro ⟨-, h0 | h0⟩
      · exact ha h0
      · exact hb h0
  unfold run_sapt_dft
  simp [hcond, href, hfrag, hch, hd, set_default_namespace, emit,
    primaryPart_ok eng wf hscf]

set_option maxHeartbeats 1000000 in
theorem run_ok_dhf (eng : Engine) (wf : ℕ → Wfn)
    (hscf : ∀ n, eng.scf n = Except.ok (wf n)) (sapt : SaptOptions)
    (mol : Molecule) (s0 : RunState)
    (hval : sapt.sapt_dft_functional = "HF" ∨
      (sapt.sapt_dft_grac_shift_a ≠ 0 ∧ sapt.sapt_dft_grac_shift_b ≠ 0))
    (href : s0.opts.reference = "RHF") (hfrag : mol.nfragments = 2)
    (hch : s0.opts.scf_type_changed = false)
    (hd : sapt.sapt_dft_do_dhf = true) :
    run_sapt_dft eng sapt mol s0 =
      (Except.ok (DimerWfn.fromScf (wf s0.nscf),
        primaryData eng sapt wf (DimerWfn.fromScf (wf s0.nscf))
          [("Delta HF Correction", auxDhf eng sapt wf s0.nscf)] (s0.nscf + 3)),
       { opts := { scf_type := "DF", scf_type_changed := true, reference := "RKS",
                   dft_functional := sapt.sapt_dft_functional, dft_grac_shift := 0,
                   save_jk := true, df_ints_io := "SAVE" },
         vars := dictUpdate (dictSet (dictSet
             (dictSet (dictSet (dictSet (dictSet s0.vars
               "CURRENT ENERGY" (wf s0.nscf).energy)
               "CURRENT ENERGY" (wf (s0.nscf+1)).energy)
               "CURRENT ENERGY" (wf (s0.nscf+2)).energy)
               "SAPT(DFT) Delta HF" (auxDhf eng sapt wf s0.nscf))
             "CURRENT ENERGY" (wf (s0.nscf+3)).energy)
             "CURRENT ENERGY" (wf (s0.nscf+3+1)).energy)
             (primaryData eng sapt wf (DimerWfn.fromScf (wf s0.nscf))
               [("Delta HF Correction", auxDhf eng sapt wf s0.nscf)] (s0.nscf + 3)),
         default_ns := "monomerB",
         trace := s0.trace ++ [Event.setNs "dimer",
            Event.scfCall PassTag.aux MolTag.dimer s0.opts.dft_grac_shift,
            Event.relabel "dimer" "monomerA",
            Event.scfCall PassTag.aux MolTag.monomerA s0.opts.dft_grac_shift,
            Event.relabel "monomerA" "monomerB",
            Event.scfCall PassTag.aux MolTag.monomerB s0.opts.dft_grac_shift,
            Event.relabel "monomerB" "dimer",
            Event.relabel "dimer" "monomerA", Event.setNs "monomerA",
            Event.scfCall PassTag.primary MolTag.monomerA
              (if sapt.sapt_dft_grac_shift_a = 0 then s0.opts.dft_grac_shift
               else sapt.sapt_dft_grac_shift_a),
            Event.relabel "monomerA" "monomerB", Event.setNs "monomerB",
            Event.scfCall PassTag.primary MolTag.monomerB
              (if sapt.sapt_dft_grac_shift_b = 0 then 0
               else sapt.sapt_dft_grac_shift_b),
            if sapt.sapt_dft_mp2_disp_alg = "FISAPT" then Event.dispFisapt
            else Event.dispSapt],
         nscf := s0.nscf + 3 + 2 }) := by
  have hcond : ¬(sapt.sapt_dft_functional ≠ "HF" ∧
      (sapt.sapt_dft_grac_shift_a = 0 ∨ sapt.sapt_dft_grac_shift_b = 0)) := by
    rcases hval with hf | ⟨ha, hb⟩
    · exact fun h => h.1 hf
    · rintro ⟨-, h0 | h0⟩
      · exact ha h0
      · exact hb h0
  unfold run_sapt_dft
  simp [hcond, href, hfrag, hch, hd, set_default_namespace, emit,
    auxPass_ok eng wf hscf, primaryPart_ok eng wf hscf, dictSet]

set_option maxHeartbeats 1000000 in
theorem auxPass_ok_nodf (eng : Engine) (wf : ℕ → Wfn)
    (hscf : ∀ n, eng.scf n = Except.ok (wf n)) (sapt : SaptOptions)
    (s : RunState) (hndf : s.opts.scf_type ≠ "DF") :
    auxPass eng sapt s =
      (Except.ok (wf s.nscf, auxDhf eng sapt wf s.nscf, auxDhf eng sapt wf s.nscf),
       { opts := s.opts,
         vars := dictSet (dictSet (dictSet (dictSet s.vars
             "CURRENT ENERGY" (wf s.nscf).energy)
             "CURRENT ENERGY" (wf (s.nscf+1)).energy)
             "CURRENT ENERGY" (wf (s.nscf+2)).energy)
             "SAPT(DFT) Delta HF" (auxDhf eng sapt wf s.nscf),
         default_ns := s.default_ns,
         trace := s.trace ++ [Event.scfCall PassTag.aux MolTag.dimer s.opts.dft_grac_shift,
            Event.scfCall PassTag.aux MolTag.monomerA s.opts.dft_grac_shift,
            Event.scfCall PassTag.aux MolTag.monomerB s.opts.dft_grac_shift],
         nscf := s.nscf + 3 }) := by
  unfold auxPass
  simp [hscf, hndf, scf_helper_vars eng wf hscf, change_file_namespace, emit,
    getVariable, print_sapt_hf_summary, setVariable, dictGet_set_self,
    auxHfData, auxDhf, dictSet]

set_option maxHeartbeats 1000000 in
theorem primaryPart_ok_nodf (eng : Engine) (wf : ℕ → Wfn)
    (hscf : ∀ n, eng.scf n = Except.ok (wf n)) (sapt : SaptOptions)
    (dw : DimerWfn) (data : Dict) (s : RunState)
    (hndf : s.opts.scf_type ≠ "DF") :
    primaryPart eng sapt dw data s =
      (Except.ok (dw, primaryData eng sapt wf dw data s.nscf),
       { opts := { s.opts with
                     dft_functional := sapt.sapt_dft_functional
                     reference := "RKS"
                     dft_grac_shift := 0 },
         vars := dictUpdate (dictSet (dictSet s.vars
             "CURRENT ENERGY" (wf s.nscf).energy)
             "CURRENT ENERGY" (wf (s.nscf+1)).energy)
             (primaryData eng sapt wf dw data s.nscf),
         default_ns := "monomerB",
         trace := s.trace ++ [Event.setNs "monomerA",
            Event.scfCall PassTag.primary MolTag.monomerA
              (if sapt.sapt_dft_grac_shift_a = 0 then s.opts.dft_grac_shift
               else sapt.sapt_dft_grac_shift_a),
            Event.setNs "monomerB",
            Event.scfCall PassTag.primary MolTag.monomerB
              (if sapt.sapt_dft_grac_shift_b = 0 then 0
               else sapt.sapt_dft_grac_shift_b),
            if sapt.sapt_dft_mp2_disp_alg = "FISAPT" then Event.dispFisapt
            else Event.dispSapt],
         nscf := s.nscf + 2 }) := by
  unfold primaryPart
  by_cases ha0 : sapt.sapt_dft_grac_shift_a = 0 <;>
  by_cases hb0 : sapt.sapt_dft_grac_shift_b = 0 <;>
  by_cases halg : sapt.sapt_dft_mp2_disp_alg = "FISAPT" <;>
  simp [hscf, hndf, scf_helper_vars eng wf hscf, change_file_namespace, emit,
    set_default_namespace, getVariable, setVariable, dictGet_set_self,
    primaryData, mp2DispList, ha0, hb0, halg]

set_option maxHeartbeats 1000000 in
theorem run_nodf_nodhf (eng : Engine) (wf : ℕ → Wfn)
    (hscf : ∀ n, eng.scf n = Except.ok (wf n)) (sapt : SaptOptions)
    (mol : Molecule) (s0 : RunState)
    (hval : sapt.sapt_dft_functional = "HF" ∨
      (sapt.sapt_dft_grac_shift_a ≠ 0 ∧ sapt.sapt_dft_grac_shift_b ≠ 0))
    (href : s0.opts.reference = "RHF") (hfrag : mol.nfragments = 2)
    (hch : s0.opts.scf_type_changed = true)
    (hndf : s0.opts.scf_type ≠ "DF")
    (hd : sapt.sapt_dft_do_dhf = false) :
    run_sapt_dft eng sapt mol s0 =
      (Except.ok (DimerWfn.built, primaryData eng sapt wf DimerWfn.built [] s0.nscf),
       { opts := { s0.opts with
                     reference := "RKS"
                     dft_functional := sapt.sapt_dft_functional
                     dft_grac_shift := 0
                     save_jk := true },
         vars := dictUpdate (dictSet (dictSet s0.vars
             "CURRENT ENERGY" (wf s0.nscf).energy)
             "CURRENT ENERGY" (wf (s0.nscf+1)).energy)
             (primaryData eng sapt wf DimerWfn.built [] s0.nscf),
         default_ns := "monomerB",
         trace := s0.trace ++ [Event.setNs "dimer", Event.setNs "monomerA",
            Event.scfCall PassTag.primary MolTag.monomerA
              (if sapt.sapt_dft_grac_shift_a = 0 then s0.opts.dft_grac_shift
               else sapt.sapt_dft_grac_shift_a),
            Event.setNs "monomerB",
            Event.scfCall PassTag.primary MolTag.monomerB
              (if sapt.sapt_dft_grac_shift_b = 0 then 0
               else sapt.sapt_dft_grac_shift_b),
            if sapt.sapt_dft_mp2_disp_alg = "FISAPT" then Event.dispFisapt
            else Event.dispSapt],
         nscf := s0.nscf + 2 }) := by
  have hcond : ¬(sapt.sapt_dft_functional ≠ "HF" ∧
      (sapt.sapt_dft_grac_shift_a = 0 ∨ sapt.sapt_dft_grac_shift_b = 0)) := by
    rcases hval with hf | ⟨ha, hb⟩
    · exact fun h => h.1 hf
    · rintro ⟨-, h0 | h0⟩
      · exact ha h0
      · exact hb h0
  unfold run_sapt_dft
  simp [hcond, href, hfrag, hch, hndf, hd, set_default_namespace, emit,
    primaryPart_ok_nodf eng wf hscf]

set_option maxHeartbeats 1000000 in
theorem run_nodf_dhf (eng : Engine) (wf : ℕ → Wfn)
    (hscf : ∀ n, eng.scf n = Except.ok (wf n)) (sapt : SaptOptions)
    (mol : Molecule) (s0 : RunState)
    (hval : sapt.sapt_dft_functional = "HF" ∨
      (sapt.sapt_dft_grac_shift_a ≠ 0 ∧ sapt.sapt_dft_grac_shift_b ≠ 0))
    (href : s0.opts.reference = "RHF") (hfrag : mol.nfragments = 2)
    (hch : s0.opts.scf_type_changed = true)
    (hndf : s0.opts.scf_type ≠ "DF")
    (hd : sapt.sapt_dft_do_dhf = true) :
    run_sapt_dft eng sapt mol s0 =
      (Except.ok (DimerWfn.fromScf (wf s0.nscf),
        primaryData eng sapt wf (DimerWfn.fromScf (wf s0.nscf))
          [("Delta HF Correction", auxDhf eng sapt wf s0.nscf)] (s0.nscf + 3)),
       { opts := { s0.opts with
                     reference := "RKS"
                     dft_functional := sapt.sapt_dft_functional
                     dft_grac_shift := 0
                     save_jk := true },
         vars := dictUpdate (dictSet (dictSet
             (dictSet (dictSet (dictSet (dictSet s0.vars
               "CURRENT ENERGY" (wf s0.nscf).energy)
               "CURRENT ENERGY" (wf (s0.nscf+1)).energy)
               "CURRENT ENERGY" (wf (s0.nscf+2)).energy)
               "SAPT(DFT) Delta HF" (auxDhf eng sapt wf s0.nscf))
             "CURRENT ENERGY" (wf (s0.nscf+3)).energy)
             "CURRENT ENERGY" (wf (s0.nscf+3+1)).energy)
             (primaryData eng sapt wf (DimerWfn.fromScf (wf s0.nscf))
               [("Delta HF Correction", auxDhf eng sapt wf s0.nscf)] (s0.nscf + 3)),
         default_ns := "monomerB",
         trace := s0.trace ++ [Event.setNs "dimer",
            Event.scfCall PassTag.aux MolTag.dimer s0.opts.dft_grac_shift,
            Event.scfCall PassTag.aux MolTag.monomerA s0.opts.dft_grac_shift,
            Event.scfCall PassTag.aux MolTag.monomerB s0.opts.dft_grac_shift,
            Event.setNs "monomerA",
            Event.scfCall PassTag.primary MolTag.monomerA
              (if sapt.sapt_dft_grac_shift_a = 0 then s0.opts.dft_grac_shift
               else sapt.sapt_dft_grac_shift_a),
            Event.setNs "monomerB",
            Event.scfCall PassTag.primary MolTag.monomerB
              (if sapt.sapt_dft_grac_shift_b = 0 then 0
               else sapt.sapt_dft_grac_shift_b),
            if sapt.sapt_dft_mp2_disp_alg = "FISAPT" then Event.dispFisapt
            else Event.dispSapt],
         nscf := s0.nscf + 3 + 2 }) := by
  have hcond : ¬(sapt.sapt_dft_functional ≠ "HF" ∧
      (sapt.sapt_dft_grac_shift_a = 0 ∨ sapt.sapt_dft_grac_shift_b = 0)) := by
    rcases hval with hf | ⟨ha, hb⟩
    · exact fun h => h.1 hf
    · rintro ⟨-, h0 | h0⟩
      · exact ha h0
      · exact hb h0
  unfold run_sapt_dft
  simp [hcond, href, hfrag, hch, hndf, hd, set_default_namespace, emit,
    auxPass_ok_nodf eng wf hscf, primaryPart_ok_nodf eng wf hscf, dictSet]

/-! ## Claims -/

/-- C1: the claim says every configuration key recorded by the
`OptionsState` snapshot at entry (SCF_TYPE, REFERENCE, DFT_FUNCTIONAL,
DFT_GRAC_SHIFT, SAVE_JK) is restored on every exit path.  The code never
calls `optstash.restore()`: this theorem evaluates a successful run and
shows SCF_TYPE, REFERENCE, DFT_FUNCTIONAL and SAVE_JK all differ from
their pre-run values after the run returns. -/
theorem C1_options_not_restored :
    (run_sapt_dft engOk saptHF mol2 s0Default).1
      = Except.ok (DimerWfn.built, [("DFT MONOMERA", 0), ("DFT MONOMERB", 1)])
    ∧ s0Default.opts.scf_type = "PK"
    ∧ (run_sapt_dft engOk saptHF mol2 s0Default).2.opts.scf_type = "DF"
    ∧ s0Default.opts.reference = "RHF"
    ∧ (run_sapt_dft engOk saptHF mol2 s0Default).2.opts.reference = "RKS"
    ∧ s0Default.opts.dft_functional = "B3LYP"
    ∧ (run_sapt_dft engOk saptHF mol2 s0Default).2.opts.dft_functional = "HF"
    ∧ s0Default.opts.save_jk = false
    ∧ (run_sapt_dft engOk saptHF mol2 s0Default).2.opts.save_jk = true := by
  decide

/-- C5: the claim says a run on a composite with 3 fragments raises a
ValidationFailure and leaves global configuration entirely unchanged.  The
raise is real, but when the caller has not changed SCF_TYPE the pipeline
has already forced SCF_TYPE to "DF" (line 55) before the fragment check,
and nothing restores it: configuration is changed on this path. -/
theorem C5_validation_leaves_options_changed :
    (run_sapt_dft engOk saptDHF mol3 s0Default).1
      = Except.error (RunError.validation
          "SAPT requires active molecule to have 2 fragments.")
    ∧ s0Default.opts.scf_type = "PK"
    ∧ (run_sapt_dft engOk saptDHF mol3 s0Default).2.opts.scf_type = "DF" := by
  decide

/-- C2 counterexample: the claim says the primary pass performs exactly
three sub-calculations, dimer then monomer A then monomer B.  On a
successful run without the delta-HF pass, the whole run performs exactly
two SCF sub-calculations — monomer A then monomer B — and no dimer
sub-calculation at all, refuting the claimed three-call structure. -/
theorem C2_primary_pass_has_no_dimer_calculation :
    ((run_sapt_dft engOk saptHF mol2 s0Default).2.trace.filter Event.isScf).map Event.shape
      = [EventShape.scfCall PassTag.primary MolTag.monomerA,
         EventShape.scfCall PassTag.primary MolTag.monomerB]
    ∧ ((run_sapt_dft engOk saptHF mol2 s0Default).2.trace.filter Event.isScf).map Event.shape
      ≠ [EventShape.scfCall PassTag.primary MolTag.dimer,
         EventShape.scfCall PassTag.primary MolTag.monomerA,
         EventShape.scfCall PassTag.primary MolTag.monomerB] := by
  decide

/-- C3 counterexample: the claim says the returned value is the
wavefunction produced by the primary pass's dimer sub-calculation.  On a
successful run without the delta-HF pass the pipeline returns a freshly
built wavefunction object (`core.Wavefunction.build`, line 199), and the
trace contains no primary-pass dimer sub-calculation whose product it
could be. -/
theorem C3_returns_built_wavefunction :
    returnedWfn (run_sapt_dft engOk saptHF mol2 s0Default) = some DimerWfn.built
    ∧ ((run_sapt_dft engOk saptHF mol2 s0Default).2.trace.map Event.shape).count
        (EventShape.scfCall PassTag.primary MolTag.dimer) = 0 := by
  decide

/-- C9 counterexample: the claim says the GRAC shift is reset to 0.0 after
each monomer sub-calculation regardless of the sub-calculation's outcome.
When the monomer A SCF call raises, the exception propagates before the
reset at line 219 runs: the run fails with the global DFT_GRAC_SHIFT still
holding monomer A's override 3 ≠ 0. -/
theorem C9_shift_not_reset_on_failure :
    (run_sapt_dft engFail0 saptPBE mol2 s0Default).1 = Except.error RunError.engine
    ∧ (run_sapt_dft engFail0 saptPBE mol2 s0Default).2.opts.dft_grac_shift = 3
    ∧ ¬(run_sapt_dft engFail0 saptPBE mol2 s0Default).2.opts.dft_grac_shift = 0 := by
  decide

/-- C8 counterexample: the claim says the auxiliary pass's electrostatics,
exchange and induction terms are merged into the running Report.  They are
not: they accumulate in the pass-local `hf_data` mapping (lines 176-189),
which is only printed; the final Report of a successful delta-HF run
contains the primary pass's electrostatics label but not the auxiliary
pass's, and only "Delta HF Correction" survives from the auxiliary pass. -/
theorem C8_aux_terms_not_in_report :
    "AUX ELST" ∉ dictKeys (runReport (run_sapt_dft engAux saptDHF mol2 s0Default))
    ∧ "PRIM ELST" ∈ dictKeys (runReport (run_sapt_dft engAux saptDHF mol2 s0Default))
    ∧ "Delta HF Correction" ∈ dictKeys (runReport (run_sapt_dft engAux saptDHF mol2 s0Default))
    ∧ "AUX ELST" ∉ dictKeys (run_sapt_dft engAux saptDHF mol2 s0Default).2.vars := by
  decide

/-- C4: if the primary functional is not "HF" and either GRAC shift is at
its default 0.0, the run raises the ValidationError of line 110 before any
SCF engine call: the call counter and the trace are untouched. -/
theorem C4_shift_validation_fails_fast (eng : Engine) (sapt : SaptOptions)
    (mol : Molecule) (s0 : RunState)
    (hfun : sapt.sapt_dft_functional ≠ "HF")
    (hshift : sapt.sapt_dft_grac_shift_a = 0 ∨ sapt.sapt_dft_grac_shift_b = 0) :
    (run_sapt_dft eng sapt mol s0).1
      = Except.error (RunError.validation
          "SAPT(DFT): must set both SAPT_DFT_GRAC_SHIFT_A and B.")
    ∧ (run_sapt_dft eng sapt mol s0).2.nscf = s0.nscf
    ∧ (run_sapt_dft eng sapt mol s0).2.trace = s0.trace := by
  by_cases hch : s0.opts.scf_type_changed <;>
    rcases hshift with h | h <;>
      simp [run_sapt_dft, hch, hfun, h]

/-- Witness for C4 at a concrete input: functional "PBE0" with both shifts
at 0.0 fails fast with zero engine calls. -/
theorem C4_witness :
    (run_sapt_dft engOk saptBad mol2 s0Default).1
      = Except.error (RunError.validation
          "SAPT(DFT): must set both SAPT_DFT_GRAC_SHIFT_A and B.")
    ∧ (run_sapt_dft engOk saptBad mol2 s0Default).2.nscf = s0Default.nscf
    ∧ (run_sapt_dft engOk saptBad mol2 s0Default).2.trace = s0Default.trace :=
  C4_shift_validation_fails_fast engOk saptBad mol2 s0Default
    (by decide) (Or.inl (by decide))

/-- C2 (amended): on every successful run, the delta-HF pass (when its
flag is set) performs three sub-calculations in strict order — dimer,
monomer A, monomer B — with relabelings dimer→monomerA, monomerA→monomerB
between them and monomerB→dimer after it; the primary pass performs only
two sub-calculations — monomer A then monomer B — with relabelings
dimer→monomerA before A and monomerA→monomerB before B, and no
relabeling after B. -/
theorem C2_pass_structure (eng : Engine) (wf : ℕ → Wfn) (sapt : SaptOptions)
    (mol : Molecule) (s0 : RunState)
    (hscf : ∀ n, eng.scf n = Except.ok (wf n))
    (hval : sapt.sapt_dft_functional = "HF" ∨
      (sapt.sapt_dft_grac_shift_a ≠ 0 ∧ sapt.sapt_dft_grac_shift_b ≠ 0))
    (href : s0.opts.reference = "RHF")
    (hfrag : mol.nfragments = 2)
    (hch : s0.opts.scf_type_changed = false)
    (htrace : s0.trace = []) :
    ((run_sapt_dft eng sapt mol s0).2.trace.map Event.shape) =
      [EventShape.setNs "dimer"]
      ++ (if sapt.sapt_dft_do_dhf then
            [EventShape.scfCall PassTag.aux MolTag.dimer,
             EventShape.relabel "dimer" "monomerA",
             EventShape.scfCall PassTag.aux MolTag.monomerA,
             EventShape.relabel "monomerA" "monomerB",
             EventShape.scfCall PassTag.aux MolTag.monomerB,
             EventShape.relabel "monomerB" "dimer"] else [])
      ++ [EventShape.relabel "dimer" "monomerA",
          EventShape.setNs "monomerA",
          EventShape.scfCall PassTag.primary MolTag.monomerA,
          EventShape.relabel "monomerA" "monomerB",
          EventShape.setNs "monomerB",
          EventShape.scfCall PassTag.primary MolTag.monomerB]
      ++ [if sapt.sapt_dft_mp2_disp_alg = "FISAPT" then EventShape.dispFisapt
          else EventShape.dispSapt] := by
  cases hd : sapt.sapt_dft_do_dhf
  · rw [run_ok_nodhf eng wf hscf sapt mol s0 hval href hfrag hch hd]
    by_cases halg : sapt.sapt_dft_mp2_disp_alg = "FISAPT" <;>
      simp [Event.shape, htrace, halg]
  · rw [run_ok_dhf eng wf hscf sapt mol s0 hval href hfrag hch hd]
    by_cases halg : sapt.sapt_dft_mp2_disp_alg = "FISAPT" <;>
      simp [Event.shape, htrace, halg]

/-- Witness for C2 (amended) on a concrete delta-HF run. -/
theorem C2_witness :
    ((run_sapt_dft engOk saptDHF mol2 s0Default).2.trace.map Event.shape) =
      [EventShape.setNs "dimer",
       EventShape.scfCall PassTag.aux MolTag.dimer,
       EventShape.relabel "dimer" "monomerA",
       EventShape.scfCall PassTag.aux MolTag.monomerA,
       EventShape.relabel "monomerA" "monomerB",
       EventShape.scfCall PassTag.aux MolTag.monomerB,
       EventShape.relabel "monomerB" "dimer",
       EventShape.relabel "dimer" "monomerA",
       EventShape.setNs "monomerA",
       EventShape.scfCall PassTag.primary MolTag.monomerA,
       EventShape.relabel "monomerA" "monomerB",
       EventShape.setNs "monomerB",
       EventShape.scfCall PassTag.primary MolTag.monomerB,
       EventShape.dispFisapt] := by
  have h := C2_pass_structure engOk wfId saptDHF mol2 s0Default (fun _ => rfl)
    (Or.inr ⟨by decide, by decide⟩) rfl rfl rfl rfl
  simpa [saptDHF] using h

/-- C3 (amended): the value returned by a successful run is the delta-HF
pass's dimer wavefunction when the delta-HF flag is set, and otherwise a
freshly built dimer wavefunction that is not the product of any
sub-calculation; there is no primary-pass dimer sub-calculation. -/
theorem C3_returned_wavefunction (eng : Engine) (wf : ℕ → Wfn)
    (sapt : SaptOptions) (mol : Molecule) (s0 : RunState)
    (hscf : ∀ n, eng.scf n = Except.ok (wf n))
    (hval : sapt.sapt_dft_functional = "HF" ∨
      (sapt.sapt_dft_grac_shift_a ≠ 0 ∧ sapt.sapt_dft_grac_shift_b ≠ 0))
    (href : s0.opts.reference = "RHF")
    (hfrag : mol.nfragments = 2)
    (hch : s0.opts.scf_type_changed = false)
    (htrace : s0.trace = []) :
    returnedWfn (run_sapt_dft eng sapt mol s0) =
      some (if sapt.sapt_dft_do_dhf then DimerWfn.fromScf (wf s0.nscf)
            else DimerWfn.built)
    ∧ ((run_sapt_dft eng sapt mol s0).2.trace.map Event.shape).count
        (EventShape.scfCall PassTag.primary MolTag.dimer) = 0 := by
  cases hd : sapt.sapt_dft_do_dhf
  · rw [run_ok_nodhf eng wf hscf sapt mol s0 hval href hfrag hch hd]
    by_cases halg : sapt.sapt_dft_mp2_disp_alg = "FISAPT" <;>
      simp [returnedWfn, Event.shape, htrace, halg]
  · rw [run_ok_dhf eng wf hscf sapt mol s0 hval href hfrag hch hd]
    by_cases halg : sapt.sapt_dft_mp2_disp_alg = "FISAPT" <;>
      simp [returnedWfn, Event.shape, htrace, halg]

/-- Witness for C3 (amended) on a concrete delta-HF run: the returned
wavefunction is the delta-HF dimer result (the engine's call 0). -/
theorem C3_witness :
    returnedWfn (run_sapt_dft engOk saptDHF mol2 s0Default) =
      some (DimerWfn.fromScf (wfId 0))
    ∧ ((run_sapt_dft engOk saptDHF mol2 s0Default).2.trace.map Event.shape).count
        (EventShape.scfCall PassTag.primary MolTag.dimer) = 0 := by
  have h := C3_returned_wavefunction engOk wfId saptDHF mol2 s0Default
    (fun _ => rfl) (Or.inr ⟨by decide, by decide⟩) rfl rfl rfl rfl
  simpa [saptDHF] using h

/-- C6: whenever the delta-HF pass runs (successfully), the derived delta
quantity `dhf_value` of line 191 equals the pass's dimer energy minus the
monomer A energy minus the monomer B energy, provided the pass's
electrostatics, exchange and induction evaluators do not reuse the three
reserved HF energy labels. -/
theorem C6_delta_formula (eng : Engine) (wf : ℕ → Wfn) (sapt : SaptOptions)
    (s : RunState)
    (hscf : ∀ n, eng.scf n = Except.ok (wf n))
    (hdf : s.opts.scf_type = "DF")
    (helst : ∀ c, "HF DIMER" ∉ dictKeys (eng.elst c)
      ∧ "HF MONOMER A" ∉ dictKeys (eng.elst c)
      ∧ "HF MONOMER B" ∉ dictKeys (eng.elst c))
    (hexch : ∀ c, "HF DIMER" ∉ dictKeys (eng.exch c)
      ∧ "HF MONOMER A" ∉ dictKeys (eng.exch c)
      ∧ "HF MONOMER B" ∉ dictKeys (eng.exch c))
    (hind : ∀ c m q, "HF DIMER" ∉ dictKeys (eng.ind c m q)
      ∧ "HF MONOMER A" ∉ dictKeys (eng.ind c m q)
      ∧ "HF MONOMER B" ∉ dictKeys (eng.ind c m q)) :
    auxDelta (auxPass eng sapt s) =
      some ((wf s.nscf).energy - (wf (s.nscf+1)).energy
        - (wf (s.nscf+2)).energy) := by
  rw [auxPass_ok eng wf hscf sapt s hdf]
  simp only [auxDelta, auxDhf, auxHfData]
  rw [dictGet_update_not_mem _ _ _ (hind _ _ _).1,
    dictGet_update_not_mem _ _ _ (hexch _).1,
    dictGet_update_not_mem _ _ _ (helst _).1,
    dictGet_update_not_mem _ _ _ (hind _ _ _).2.1,
    dictGet_update_not_mem _ _ _ (hexch _).2.1,
    dictGet_update_not_mem _ _ _ (helst _).2.1,
    dictGet_update_not_mem _ _ _ (hind _ _ _).2.2,
    dictGet_update_not_mem _ _ _ (hexch _).2.2,
    dictGet_update_not_mem _ _ _ (helst _).2.2]
  simp [dictGet]

/-- Witness for C6 at the spec's example energies: 10.0, 4.0, 3.0 give
delta 3.0. -/
theorem C6_witness :
    auxDelta (auxPass engC6 saptDHF sDF) = some 3 := by
  have h := C6_delta_formula engC6 wfC6 saptDHF sDF (fun _ => rfl) rfl
    (fun c => by simp [engC6, dictKeys_nil])
    (fun c => by simp [engC6, dictKeys_nil])
    (fun c m q => by simp [engC6, dictKeys_nil])
  rw [h]
  norm_num [wfC6, sDF, s0Default]

/-- C7: on every successful run, exactly one of the two mutually exclusive
MP2 dispersion evaluators runs — the FISAPT variant when the algorithm
flag equals "FISAPT", the SAPT variant otherwise — never both and never
neither, and every label it returns appears in the final Report. -/
theorem C7_dispersion_dispatch (eng : Engine) (wf : ℕ → Wfn)
    (sapt : SaptOptions) (mol : Molecule) (s0 : RunState)
    (hscf : ∀ n, eng.scf n = Except.ok (wf n))
    (hval : sapt.sapt_dft_functional = "HF" ∨
      (sapt.sapt_dft_grac_shift_a ≠ 0 ∧ sapt.sapt_dft_grac_shift_b ≠ 0))
    (href : s0.opts.reference = "RHF")
    (hfrag : mol.nfragments = 2)
    (hch : s0.opts.scf_type_changed = false)
    (htrace : s0.trace = []) :
    ((run_sapt_dft eng sapt mol s0).2.trace.filter Event.isDisp)
      = [if sapt.sapt_dft_mp2_disp_alg = "FISAPT" then Event.dispFisapt
         else Event.dispSapt]
    ∧ ∀ k ∈ dictKeys (mp2DispList eng sapt wf
          (if sapt.sapt_dft_do_dhf then DimerWfn.fromScf (wf s0.nscf)
           else DimerWfn.built)
          (if sapt.sapt_dft_do_dhf then s0.nscf + 3 else s0.nscf)),
        k ∈ dictKeys (runReport (run_sapt_dft eng sapt mol s0)) := by
  cases hd : sapt.sapt_dft_do_dhf
  · rw [run_ok_nodhf eng wf hscf sapt mol s0 hval href hfrag hch hd]
    constructor
    · by_cases halg : sapt.sapt_dft_mp2_disp_alg = "FISAPT" <;>
        simp [Event.isDisp, htrace, halg]
    · intro k hk
      simp only [runReport, primaryData] at *
      exact (mem_dictKeys_update _ _ _).mpr (Or.inr hk)
  · rw [run_ok_dhf eng wf hscf sapt mol s0 hval href hfrag hch hd]
    constructor
    · by_cases halg : sapt.sapt_dft_mp2_disp_alg = "FISAPT" <;>
        simp [Event.isDisp, htrace, halg]
    · intro k hk
      simp only [runReport, primaryData] at *
      exact (mem_dictKeys_update _ _ _).mpr (Or.inr hk)

/-- Witness for C7 on a concrete run with the FISAPT algorithm flag. -/
theorem C7_witness :
    ((run_sapt_dft engC7 saptDHF mol2 s0Default).2.trace.filter Event.isDisp)
        = [Event.dispFisapt]
    ∧ ∀ k ∈ dictKeys (mp2DispList engC7 saptDHF wfId
          (DimerWfn.fromScf (wfId 0)) 3),
        k ∈ dictKeys (runReport (run_sapt_dft engC7 saptDHF mol2 s0Default)) := by
  have h := C7_dispersion_dispatch engC7 wfId saptDHF mol2 s0Default
    (fun _ => rfl) (Or.inr ⟨by decide, by decide⟩) rfl rfl rfl rfl
  simpa [saptDHF, s0Default] using h

/-- C8 (amended): on every successful run with the delta-HF pass enabled,
the pass's electrostatics/exchange/induction terms stay in the pass-local
`hf_data` mapping and are NOT merged into the Report: the Report records
from the auxiliary pass only the derived delta quantity, under the label
"Delta HF Correction" (first conjunct); every Report key comes from that
label, the two monomer energy labels, or the primary pass's evaluators
(second conjunct); and every Report entry is published to the process-wide
variable store keyed by its label (third conjunct). -/
theorem C8_report_aggregation (eng : Engine) (wf : ℕ → Wfn)
    (sapt : SaptOptions) (mol : Molecule) (s0 : RunState)
    (hscf : ∀ n, eng.scf n = Except.ok (wf n))
    (hval : sapt.sapt_dft_functional = "HF" ∨
      (sapt.sapt_dft_grac_shift_a ≠ 0 ∧ sapt.sapt_dft_grac_shift_b ≠ 0))
    (href : s0.opts.reference = "RHF")
    (hfrag : mol.nfragments = 2)
    (hch : s0.opts.scf_type_changed = false)
    (hd : sapt.sapt_dft_do_dhf = true)
    (hf1 : ∀ c, "Delta HF Correction" ∉ dictKeys (eng.elst c))
    (hf2 : ∀ c, "Delta HF Correction" ∉ dictKeys (eng.exch c))
    (hf3 : ∀ c m q, "Delta HF Correction" ∉ dictKeys (eng.ind c m q))
    (hf4 : ∀ c, "Delta HF Correction" ∉ dictKeys (eng.fdds c))
    (hf5 : ∀ a c, "Delta HF Correction" ∉ dictKeys (eng.mp2_fisapt a c))
    (hf6 : ∀ dw a b c, "Delta HF Correction" ∉ dictKeys (eng.mp2_sapt dw a b c)) :
    dictGet (runReport (run_sapt_dft eng sapt mol s0)) "Delta HF Correction"
      = auxDhf eng sapt wf s0.nscf
    ∧ (∀ k ∈ dictKeys (runReport (run_sapt_dft eng sapt mol s0)),
        k = "Delta HF Correction" ∨ k = "DFT MONOMERA" ∨ k = "DFT MONOMERB"
        ∨ k ∈ dictKeys (eng.elst { wfnA := wf (s0.nscf+3), wfnB := wf (s0.nscf+3+1) })
        ∨ k ∈ dictKeys (eng.exch { wfnA := wf (s0.nscf+3), wfnB := wf (s0.nscf+3+1) })
        ∨ k ∈ dictKeys (eng.ind { wfnA := wf (s0.nscf+3), wfnB := wf (s0.nscf+3+1) }
            sapt.maxiter sapt.d_convergence)
        ∨ k ∈ dictKeys (eng.fdds { wfnA := wf (s0.nscf+3), wfnB := wf (s0.nscf+3+1) })
        ∨ k ∈ dictKeys (mp2DispList eng sapt wf (DimerWfn.fromScf (wf s0.nscf))
            (s0.nscf+3)))
    ∧ (∀ k ∈ dictKeys (runReport (run_sapt_dft eng sapt mol s0)),
        dictGet (run_sapt_dft eng sapt mol s0).2.vars k
          = dictGet (runReport (run_sapt_dft eng sapt mol s0)) k) := by
  have hmp2 : ∀ dw n, "Delta HF Correction" ∉ dictKeys (mp2DispList eng sapt wf dw n) := by
    intro dw n
    unfold mp2DispList
    by_cases halg : sapt.sapt_dft_mp2_disp_alg = "FISAPT"
    · rw [if_pos halg]; exact hf5 _ _
    · rw [if_neg halg]; exact hf6 _ _ _ _
  rw [run_ok_dhf eng wf hscf sapt mol s0 hval href hfrag hch hd]
  have hnd : (dictKeys (primaryData eng sapt wf (DimerWfn.fromScf (wf s0.nscf))
      [("Delta HF Correction", auxDhf eng sapt wf s0.nscf)] (s0.nscf + 3))).Nodup := by
    simp only [primaryData]
    apply nodup_dictKeys_update
    apply nodup_dictKeys_update
    apply nodup_dictKeys_update
    apply nodup_dictKeys_update
    apply nodup_dictKeys_update
    simp [dictSet, dictKeys]
  refine ⟨?_, ?_, ?_⟩
  · simp only [runReport, primaryData]
    rw [dictGet_update_not_mem _ _ _ (hmp2 _ _),
      dictGet_update_not_mem _ _ _ (hf4 _),
      dictGet_update_not_mem _ _ _ (hf3 _ _ _),
      dictGet_update_not_mem _ _ _ (hf2 _),
      dictGet_update_not_mem _ _ _ (hf1 _)]
    simp [dictSet, dictGet]
  · intro k hk
    simp only [runReport, primaryData] at hk
    rw [mem_dictKeys_update, mem_dictKeys_update, mem_dictKeys_update,
      mem_dictKeys_update, mem_dictKeys_update, mem_dictKeys_set,
      mem_dictKeys_set] at hk
    simp only [dictKeys_cons, dictKeys_nil, List.mem_cons,
      List.not_mem_nil, or_false] at hk
    tauto
  · intro k hk
    simp only [runReport] at hk ⊢
    exact dictGet_update_mem _ _ _ hnd hk

/-- Witness for C8 (amended) on the concrete delta-HF run whose auxiliary
electrostatics evaluator carries the distinguishable label "AUX ELST". -/
theorem C8_witness :
    dictGet (runReport (run_sapt_dft engAux saptDHF mol2 s0Default))
        "Delta HF Correction"
      = auxDhf engAux saptDHF wfId s0Default.nscf
    ∧ (∀ k ∈ dictKeys (runReport (run_sapt_dft engAux saptDHF mol2 s0Default)),
        k = "Delta HF Correction" ∨ k = "DFT MONOMERA" ∨ k = "DFT MONOMERB"
        ∨ k ∈ dictKeys (engAux.elst { wfnA := wfId (s0Default.nscf+3), wfnB := wfId (s0Default.nscf+3+1) })
        ∨ k ∈ dictKeys (engAux.exch { wfnA := wfId (s0Default.nscf+3), wfnB := wfId (s0Default.nscf+3+1) })
        ∨ k ∈ dictKeys (engAux.ind { wfnA := wfId (s0Default.nscf+3), wfnB := wfId (s0Default.nscf+3+1) } saptDHF.maxiter saptDHF.d_convergence)
        ∨ k ∈ dictKeys (engAux.fdds { wfnA := wfId (s0Default.nscf+3), wfnB := wfId (s0Default.nscf+3+1) })
        ∨ k ∈ dictKeys (mp2DispList engAux saptDHF wfId
            (DimerWfn.fromScf (wfId s0Default.nscf)) (s0Default.nscf+3)))
    ∧ (∀ k ∈ dictKeys (runReport (run_sapt_dft engAux saptDHF mol2 s0Default)),
        dictGet (run_sapt_dft engAux saptDHF mol2 s0Default).2.vars k
          = dictGet (runReport (run_sapt_dft engAux saptDHF mol2 s0Default)) k) :=
  C8_report_aggregation engAux wfId saptDHF mol2 s0Default (fun _ => rfl)
    (Or.inr ⟨by decide, by decide⟩) rfl rfl rfl rfl
    (fun c => by by_cases h : c.wfnA.energy = 1 <;> simp [engAux, h, dictKeys])
    (fun c => by simp [engAux, dictKeys])
    (fun c m q => by simp [engAux, dictKeys])
    (fun c => by simp [engAux, dictKeys])
    (fun a c => by simp [engAux, dictKeys])
    (fun dw a b c => by simp [engAux, dictKeys])

/-- C9 (amended): on every successful run, the per-monomer GRAC shift
override is visible to that monomer's sub-calculation when set (the SCF
call for monomer A sees `SAPT_DFT_GRAC_SHIFT_A` when it is non-zero, and
the untouched pre-run value otherwise; monomer B sees its shift or the 0.0
left by the unconditional reset after monomer A), and the shift ends at
the neutral 0.0.  The reset is unconditional after a *successful*
sub-calculation — including when no shift was set — but when a monomer SCF
call raises, the exception propagates before the reset (see the
counterexample theorem). -/
theorem C9_shift_lifecycle (eng : Engine) (wf : ℕ → Wfn)
    (sapt : SaptOptions) (mol : Molecule) (s0 : RunState)
    (hscf : ∀ n, eng.scf n = Except.ok (wf n))
    (hval : sapt.sapt_dft_functional = "HF" ∨
      (sapt.sapt_dft_grac_shift_a ≠ 0 ∧ sapt.sapt_dft_grac_shift_b ≠ 0))
    (href : s0.opts.reference = "RHF")
    (hfrag : mol.nfragments = 2)
    (hch : s0.opts.scf_type_changed = false)
    (htrace : s0.trace = []) :
    (run_sapt_dft eng sapt mol s0).2.opts.dft_grac_shift = 0
    ∧ (run_sapt_dft eng sapt mol s0).2.trace.filter Event.isPrimaryScf
      = [Event.scfCall PassTag.primary MolTag.monomerA
           (if sapt.sapt_dft_grac_shift_a = 0 then s0.opts.dft_grac_shift
            else sapt.sapt_dft_grac_shift_a),
         Event.scfCall PassTag.primary MolTag.monomerB
           (if sapt.sapt_dft_grac_shift_b = 0 then 0
            else sapt.sapt_dft_grac_shift_b)] := by
  cases hd : sapt.sapt_dft_do_dhf
  · rw [run_ok_nodhf eng wf hscf sapt mol s0 hval href hfrag hch hd]
    by_cases halg : sapt.sapt_dft_mp2_disp_alg = "FISAPT" <;>
      simp [Event.isPrimaryScf, htrace, halg]
  · rw [run_ok_dhf eng wf hscf sapt mol s0 hval href hfrag hch hd]
    by_cases halg : sapt.sapt_dft_mp2_disp_alg = "FISAPT" <;>
      simp [Event.isPrimaryScf, htrace, halg]

/-- Witness for C9 (amended): shifts 3 and 2 are seen by the respective
monomer SCF calls and the shift ends reset to 0. -/
theorem C9_witness :
    (run_sapt_dft engOk saptPBE mol2 s0Default).2.opts.dft_grac_shift = 0
    ∧ (run_sapt_dft engOk saptPBE mol2 s0Default).2.trace.filter Event.isPrimaryScf
      = [Event.scfCall PassTag.primary MolTag.monomerA 3,
         Event.scfCall PassTag.primary MolTag.monomerB 2] := by
  have h := C9_shift_lifecycle engOk wfId saptPBE mol2 s0Default (fun _ => rfl)
    (Or.inr ⟨by decide, by decide⟩) rfl rfl rfl rfl
  simpa [saptPBE, s0Default] using h

/-- C10: (first conjunct) when the caller has not changed SCF_TYPE, the
pipeline forces SCF_TYPE to "DF" before any validation — even a run that
fails the fragment-count check exits with SCF_TYPE already "DF"; (second
conjunct) the same forcing is visible after a successful run; (third
conjunct) every file-namespace relabeling is guarded on SCF_TYPE = "DF",
so a run with a caller-set non-DF SCF_TYPE performs no relabeling at all
while still making the same SCF sub-calculations in the same order. -/
theorem C10_scf_type_forcing (eng : Engine) (wf : ℕ → Wfn)
    (sapt : SaptOptions) (mol : Molecule) (s0 : RunState)
    (hscf : ∀ n, eng.scf n = Except.ok (wf n))
    (hval : sapt.sapt_dft_functional = "HF" ∨
      (sapt.sapt_dft_grac_shift_a ≠ 0 ∧ sapt.sapt_dft_grac_shift_b ≠ 0))
    (href : s0.opts.reference = "RHF")
    (hfrag : mol.nfragments = 2)
    (htrace : s0.trace = []) :
    (∀ m' : Molecule, m'.nfragments ≠ 2 → s0.opts.scf_type_changed = false →
      (run_sapt_dft eng sapt m' s0).2.opts.scf_type = "DF")
    ∧ (s0.opts.scf_type_changed = false →
      (run_sapt_dft eng sapt mol s0).2.opts.scf_type = "DF")
    ∧ (s0.opts.scf_type_changed = true → s0.opts.scf_type ≠ "DF" →
      (run_sapt_dft eng sapt mol s0).2.trace.filter Event.isRelabel = []
      ∧ ((run_sapt_dft eng sapt mol s0).2.trace.filter Event.isScf).map Event.shape
        = (if sapt.sapt_dft_do_dhf then
            [EventShape.scfCall PassTag.aux MolTag.dimer,
             EventShape.scfCall PassTag.aux MolTag.monomerA,
             EventShape.scfCall PassTag.aux MolTag.monomerB] else [])
          ++ [EventShape.scfCall PassTag.primary MolTag.monomerA,
              EventShape.scfCall PassTag.primary MolTag.monomerB]) := by
  have hcond : ¬(sapt.sapt_dft_functional ≠ "HF" ∧
      (sapt.sapt_dft_grac_shift_a = 0 ∨ sapt.sapt_dft_grac_shift_b = 0)) := by
    rcases hval with hf | ⟨ha, hb⟩
    · exact fun h => h.1 hf
    · rintro ⟨-, h0 | h0⟩
      · exact ha h0
      · exact hb h0
  refine ⟨?_, ?_, ?_⟩
  · intro m' hm' hch
    simp [run_sapt_dft, hcond, href, hm', hch]
  · intro hch
    cases hd : sapt.sapt_dft_do_dhf
    · rw [run_ok_nodhf eng wf hscf sapt mol s0 hval href hfrag hch hd]
    · rw [run_ok_dhf eng wf hscf sapt mol s0 hval href hfrag hch hd]
  · intro hch hndf
    cases hd : sapt.sapt_dft_do_dhf
    · rw [run_nodf_nodhf eng wf hscf sapt mol s0 hval href hfrag hch hndf hd]
      constructor
      · by_cases halg : sapt.sapt_dft_mp2_disp_alg = "FISAPT" <;>
          simp [Event.isRelabel, htrace, halg]
      · by_cases halg : sapt.sapt_dft_mp2_disp_alg = "FISAPT" <;>
          simp [Event.isScf, Event.shape, htrace, halg]
    · rw [run_nodf_dhf eng wf hscf sapt mol s0 hval href hfrag hch hndf hd]
      constructor
      · by_cases halg : sapt.sapt_dft_mp2_disp_alg = "FISAPT" <;>
          simp [Event.isRelabel, htrace, halg]
      · by_cases halg : sapt.sapt_dft_mp2_disp_alg = "FISAPT" <;>
          simp [Event.isScf, Event.shape, htrace, halg]

/-- Witness for C10 at a state whose caller set SCF_TYPE to "PK": no
relabeling happens; the SCF calls still run in order. -/
theorem C10_witness :
    (∀ m' : Molecule, m'.nfragments ≠ 2 → s0PK.opts.scf_type_changed = false →
      (run_sapt_dft engOk saptPBE m' s0PK).2.opts.scf_type = "DF")
    ∧ (s0PK.opts.scf_type_changed = false →
      (run_sapt_dft engOk saptPBE mol2 s0PK).2.opts.scf_type = "DF")
    ∧ (s0PK.opts.scf_type_changed = true → s0PK.opts.scf_type ≠ "DF" →
      (run_sapt_dft engOk saptPBE mol2 s0PK).2.trace.filter Event.isRelabel = []
      ∧ ((run_sapt_dft engOk saptPBE mol2 s0PK).2.trace.filter Event.isScf).map Event.shape
        = (if saptPBE.sapt_dft_do_dhf then
            [EventShape.scfCall PassTag.aux MolTag.dimer,
             EventShape.scfCall PassTag.aux MolTag.monomerA,
             EventShape.scfCall PassTag.aux MolTag.monomerB] else [])
          ++ [EventShape.scfCall PassTag.primary MolTag.monomerA,
              EventShape.scfCall PassTag.primary MolTag.monomerB]) :=
  C10_scf_type_forcing engOk wfId saptPBE mol2 s0PK (fun _ => rfl)
    (Or.inr ⟨by decide, by decide⟩) rfl rfl rfl
